import Mathlib

/-!
Shallow embedding of the unified authentication core of the softcodes
VS Code extension: the `UnifiedAuthService` session manager
(`src/auth/unifiedAuthService.ts`), its configuration constants
(`src/auth/config.ts`), and the authenticated `ApiClient`.

The durable secret store (`vscode.ExtensionContext.secrets`) is modelled as a
total map from keys to optional string values; the in-memory `pendingAuth`
map is modelled the same way (state ↦ codeVerifier).  Network interactions
are modelled by environment oracles: each operation takes the backend's
response(s) as an explicit argument and returns, besides its result, the new
store state and a log of the requests it issued.  JavaScript truthiness of
optional strings (`undefined`, `null` and `""` are falsy) is modelled
explicitly.
-/

namespace Softcodes

/-- Truthiness of a JS value of type `string | undefined`: absent and the
empty string are falsy. -/
def strTruthy : Option String → Bool
  | some s => s != ""
  | none => false

/-- A JS value of type `string | null | undefined`, as it appears in parsed
JSON payloads (`organization_id?: string | null`). -/
inductive OptStr where
  | undef : OptStr
  | null : OptStr
  | str : String → OptStr
deriving DecidableEq

/-- JS truthiness: `undefined`, `null` and `""` are falsy. -/
def OptStr.truthy : OptStr → Bool
  | .str s => s != ""
  | _ => false

/-- The string payload of an `OptStr` (meaningful only when truthy). -/
def OptStr.val : OptStr → String
  | .str s => s
  | _ => ""

/-- The durable secret store: a key-value map of strings. -/
def Store : Type := String → Option String

/-- Read a key (`secrets.get`). -/
def Store.get (s : Store) (k : String) : Option String := s k

/-- Write a key (`secrets.store`). -/
def Store.put (s : Store) (k v : String) : Store :=
  fun x => if x = k then some v else s x

/-- Delete a key (`secrets.delete`). -/
def Store.del (s : Store) (k : String) : Store :=
  fun x => if x = k then none else s x

/-- The empty store. -/
def Store.empty : Store := fun _ => none

/-- Token payload returned by the backend
(interface `AuthTokens` in `unifiedAuthService.ts`):
`access_token` and `refresh_token` are required strings,
`session_id` is `string?`, `organization_id` is `string | null | undefined`. -/
structure AuthTokens where
  access_token : String
  refresh_token : String
  session_id : OptStr
  organization_id : OptStr
deriving DecidableEq

/-- Embedding of `UnifiedAuthService.storeTokens`: stores `access_token` and
`refresh_token` unconditionally, and `session_id` / `organization_id` only
behind a JS truthiness test (`if (tokens.session_id)`,
`if (tokens.organization_id)`). -/
def storeTokens (s : Store) (t : AuthTokens) : Store :=
  let s1 := s.put "access_token" t.access_token
  let s2 := s1.put "refresh_token" t.refresh_token
  let s3 := if t.session_id.truthy then s2.put "session_id" t.session_id.val else s2
  if t.organization_id.truthy then s3.put "organization_id" t.organization_id.val else s3

/-- Result of `UnifiedAuthService.signOut`: the final store state, the final
in-memory pending map, whether the backend sign-out notify fetch was issued,
and the session id it carried if so. -/
structure SignOutOut where
  store : Store
  pending : Store
  notifyCalled : Bool
  notifiedSessionId : Option String

/-- Embedding of `UnifiedAuthService.signOut`, mirroring the code's order of
operations: first the four credential keys are deleted (the awaited
`Promise.all`), then the pending map is cleared, and only then does the
notify block read `session_id` back from the store and issue the sign-out
fetch when that read is truthy. -/
def signOut (s : Store) (_p : Store) : SignOutOut :=
  let s1 := (((s.del "access_token").del "refresh_token").del "session_id").del "organization_id"
  let p1 : Store := Store.empty
  let sessionId := s1.get "session_id"
  if strTruthy sessionId then
    ⟨s1, p1, true, sessionId⟩
  else
    ⟨s1, p1, false, none⟩

/-- Body of a refresh-endpoint request, as serialized by
`refreshAccessToken`. -/
structure RefreshReq where
  refresh_token : String
  client_type : String
deriving DecidableEq

/-- Backend behaviour of one refresh-endpoint call: a 2xx response with a
parsed token payload, a non-2xx response, or a network/parse error. -/
inductive RefreshResp where
  | ok : AuthTokens → RefreshResp
  | httpError : RefreshResp
  | netError : RefreshResp
deriving DecidableEq

/-- Result of `refreshAccessToken` / `getAccessToken`: the returned token,
the new store and pending-map states, and the refresh requests issued. -/
structure RefreshOut where
  token : Option String
  store : Store
  pending : Store
  calls : List RefreshReq

/-- Embedding of `UnifiedAuthService.refreshAccessToken`: posts
`refresh_token` and `client_type: "vscode"` to the refresh endpoint; on
success stores the returned tokens and returns the new access token; on a
non-2xx response or a thrown error it invokes `signOut()` and returns
`undefined`. -/
def refreshAccessToken (s p : Store) (refreshToken : String) (env : RefreshResp) : RefreshOut :=
  let req : RefreshReq := ⟨refreshToken, "vscode"⟩
  match env with
  | .ok t => ⟨some t.access_token, storeTokens s t, p, [req]⟩
  | .httpError =>
      let so := signOut s p
      ⟨none, so.store, so.pending, [req]⟩
  | .netError =>
      let so := signOut s p
      ⟨none, so.store, so.pending, [req]⟩

/-- Embedding of `UnifiedAuthService.getAccessToken`: returns the stored
access token when truthy; otherwise, when a truthy refresh token is stored,
delegates to `refreshAccessToken`; otherwise returns the original (falsy)
access-token value. -/
def getAccessToken (s p : Store) (env : RefreshResp) : RefreshOut :=
  let access := s.get "access_token"
  if strTruthy access then ⟨access, s, p, []⟩
  else
    let refresh := s.get "refresh_token"
    if strTruthy refresh then refreshAccessToken s p (refresh.getD "") env
    else ⟨access, s, p, []⟩

/-- Backend behaviour of one token-exchange call in `handleCallback`: a 2xx
response with a parsed token payload, a non-2xx response whose parsed error
body has the given `error` field (`undef` when the body had none or failed to
parse, in which case the code falls back to the fixed message), or a thrown
network error with a message. -/
inductive ExchangeResp where
  | ok : AuthTokens → ExchangeResp
  | httpError : OptStr → ExchangeResp
  | netError : String → ExchangeResp
deriving DecidableEq

/-- Result of `handleCallback`: final store and pending-map states, the
error message shown on failure (`none` on success), whether the
token-exchange fetch was issued, and whether the post-auth command ran. -/
structure CallbackOut where
  store : Store
  pending : Store
  error : Option String
  exchangeCalled : Bool
  onAuthenticated : Bool

/-- Embedding of `UnifiedAuthService.handleCallback`: guards on presence of
`code` and `state` in the callback query, looks the PKCE verifier up under
the key `pkce_<state>` in the durable store (falsy ⇒ invalid state, no
exchange fetch), then exchanges the code; on a 2xx response it stores the
tokens, deletes the PKCE entry from the durable store and the state from the
in-memory map, and fires the post-auth command; any thrown error is caught
and surfaced as a message, skipping the deletions. -/
def handleCallback (s p : Store) (code st : Option String) (env : ExchangeResp) : CallbackOut :=
  if !(strTruthy code && strTruthy st) then
    ⟨s, p, some "Missing authentication parameters", false, false⟩
  else
    let stv := st.getD ""
    let verifier := s.get ("pkce_" ++ stv)
    if !(strTruthy verifier) then
      ⟨s, p, some "Invalid authentication state", false, false⟩
    else
      match env with
      | .netError m => ⟨s, p, some m, true, false⟩
      | .httpError e =>
          ⟨s, p, some (if e.truthy then e.val else "Token exchange failed"), true, false⟩
      | .ok tokens =>
          let s1 := storeTokens s tokens
          let s2 := s1.del ("pkce_" ++ stv)
          let p2 := p.del stv
          ⟨s2, p2, none, true, true⟩

/-- Backend behaviour of one validate-session call: a response with the
given `response.ok` flag, or a thrown network error. -/
inductive ValidateResp where
  | resp : Bool → ValidateResp
  | netError : ValidateResp
deriving DecidableEq

/-- Result of `validateSession`: the boolean verdict plus the store and
pending-map states left behind by the embedded `getAccessToken` call. -/
structure ValidateOut where
  valid : Bool
  store : Store
  pending : Store

/-- Embedding of `UnifiedAuthService.validateSession`: resolves an access
token via `getAccessToken` (which may refresh and, on refresh failure, sign
out), reads the stored session id, returns `false` when either is falsy,
and otherwise returns `response.ok` of the validate-session POST; a thrown
error yields `false`. -/
def validateSession (s p : Store) (refreshEnv : RefreshResp) (env : ValidateResp) : ValidateOut :=
  let g := getAccessToken s p refreshEnv
  let sessionId := g.store.get "session_id"
  if !(strTruthy g.token && strTruthy sessionId) then ⟨false, g.store, g.pending⟩
  else
    match env with
    | .resp ok => ⟨ok, g.store, g.pending⟩
    | .netError => ⟨false, g.store, g.pending⟩

/-- Lookup in a JS object built from an ordered list of key-value
assignments: a later assignment to the same key overrides an earlier one. -/
def objGet : List (String × String) → String → Option String
  | [], _ => none
  | (k, v) :: rest, key =>
      match objGet rest key with
      | some r => some r
      | none => if k == key then some v else none

/-- Headers object built by `ApiClient.request`: the caller's headers spread
first, then `Authorization` and `Content-Type` assigned after the spread. -/
def mkHeaders (caller : List (String × String)) (tok : String) : List (String × String) :=
  caller ++ [("Authorization", "Bearer " ++ tok), ("Content-Type", "application/json")]

/-- One HTTP response seen by `ApiClient.request`: its status code, the
`message` field of its parsed error body (for the non-2xx branch), and its
parsed success body. -/
structure ApiResp where
  status : Nat
  errMsg : OptStr
  body : String
deriving DecidableEq

/-- The `response.ok` flag of the fetch API: status in the 2xx range
(precisely 200–299 for the statuses used here). -/
def ApiResp.isOk (r : ApiResp) : Bool := 200 ≤ r.status && r.status < 300

/-- One network request issued by `ApiClient.request`: the bearer token it
used and the headers object it carried. -/
structure SentReq where
  token : String
  headers : List (String × String)
deriving DecidableEq

/-- Outcome of `ApiClient.request`: a resolved body, a thrown error message,
or exhaustion of the environment oracle (never reached under the hypotheses
of the theorems below). -/
inductive ReqOutcome where
  | ok : String → ReqOutcome
  | err : String → ReqOutcome
  | fuel : ReqOutcome
deriving DecidableEq

/-- Result of `ApiClient.request`: its outcome, the network requests it
issued in order, and whether the re-authentication command was triggered. -/
structure ReqOut where
  outcome : ReqOutcome
  sent : List SentReq
  reauth : Bool

/-- Embedding of `ApiClient.request`.  The oracle `toks` lists the values
returned by successive `authService.getAccessToken()` calls, and `resps`
the successive fetch responses.  A falsy token throws "Not authenticated"
with no fetch.  On a 401 the token is re-requested: when the new value is
truthy and differs from the one just used, the whole request recurses
(consuming the rest of both oracles); otherwise the re-authentication
command fires and "Authentication required" is thrown with no further
fetch.  A non-2xx, non-401 response throws the parsed `message` or a fixed
fallback; a 2xx response resolves with the body. -/
def request (caller : List (String × String)) :
    List (Option String) → List ApiResp → ReqOut
  | [], _ => ⟨.fuel, [], false⟩
  | tok :: toks, resps =>
    if !(strTruthy tok) then ⟨.err "Not authenticated", [], false⟩
    else
      let t := tok.getD ""
      match resps with
      | [] => ⟨.fuel, [], false⟩
      | r :: rs =>
        let sentReq : SentReq := ⟨t, mkHeaders caller t⟩
        if r.status == 401 then
          match toks with
          | [] => ⟨.fuel, [sentReq], false⟩
          | newTok :: toks2 =>
            if strTruthy newTok && (newTok.getD "" != t) then
              let rest := request caller toks2 rs
              ⟨rest.outcome, sentReq :: rest.sent, rest.reauth⟩
            else
              ⟨.err "Authentication required", [sentReq], true⟩
        else if r.isOk then ⟨.ok r.body, [sentReq], false⟩
        else ⟨.err (if r.errMsg.truthy then r.errMsg.val else "API request failed"), [sentReq], false⟩

/-- A concrete store holding a full credential set, used as the failing
input of the sign-out notify analysis and as counterexample material. -/
def sampleStore : Store :=
  (((Store.empty.put "access_token" "access-token-123").put
      "refresh_token" "refresh-token-456").put
      "session_id" "session-789").put "organization_id" "org-123"

/-- A concrete store holding one pending PKCE entry for state `xyz`. -/
def pendingStore : Store := Store.empty.put "pkce_xyz" "v1"

/-- The matching concrete in-memory pending map for state `xyz`. -/
def pendingMap : Store := Store.empty.put "xyz" "v1"

/-- A concrete store holding only a refresh token (the refresh-on-miss
scenario). -/
def refreshOnlyStore : Store := Store.empty.put "refresh_token" "refresh-token-456"

/-- A concrete token payload with no organization id. -/
def sampleTokens : AuthTokens :=
  ⟨"new-access-token", "new-refresh-token", .str "new-session", .undef⟩

/-- Reading a key just written returns the written value. -/
theorem Store.get_put_self (s : Store) (k v : String) : (s.put k v).get k = some v := by
  simp [Store.get, Store.put]

/-- Reading a different key is unaffected by a write. -/
theorem Store.get_put_other (s : Store) (k v k' : String) (h : k' ≠ k) :
    (s.put k v).get k' = s.get k' := by
  simp [Store.get, Store.put, h]

/-- Reading a deleted key returns nothing. -/
theorem Store.get_del_self (s : Store) (k : String) : (s.del k).get k = none := by
  simp [Store.get, Store.del]

/-- Reading a different key is unaffected by a deletion. -/
theorem Store.get_del_other (s : Store) (k k' : String) (h : k' ≠ k) :
    (s.del k).get k' = s.get k' := by
  simp [Store.get, Store.del, h]

/-- C7: `storeTokens` writes `access_token` and `refresh_token`
unconditionally; when `session_id` (resp. `organization_id`) is absent from
the payload the corresponding store entry is left unchanged, so in
particular a previously-stored organization id survives a payload that
omits it. -/
theorem storeTokens_spec (s : Store) (t : AuthTokens) :
    (storeTokens s t).get "access_token" = some t.access_token ∧
    (storeTokens s t).get "refresh_token" = some t.refresh_token ∧
    (t.session_id = .undef →
      (storeTokens s t).get "session_id" = s.get "session_id") ∧
    (t.organization_id = .undef →
      (storeTokens s t).get "organization_id" = s.get "organization_id") := by
  refine ⟨?_, ?_, ?_, ?_⟩
  · unfold storeTokens
    split <;> split <;> simp [Store.get, Store.put]
  · unfold storeTokens
    split <;> split <;> simp [Store.get, Store.put]
  · intro h
    unfold storeTokens
    simp only [h, OptStr.truthy]
    split <;> simp [Store.get, Store.put]
  · intro h
    unfold storeTokens
    simp only [h, OptStr.truthy]
    rw [if_neg (by simp)]
    split <;> simp [Store.get, Store.put]

/-- C7 witness: at a concrete store and a payload omitting both optional
fields, the tokens are written and the stored organization id survives. -/
theorem storeTokens_spec_witness :
    (⟨"A", "R", .undef, .undef⟩ : AuthTokens).session_id = .undef ∧
    (storeTokens sampleStore ⟨"A", "R", .undef, .undef⟩).get "access_token" = some "A" ∧
    (storeTokens sampleStore ⟨"A", "R", .undef, .undef⟩).get "organization_id" = some "org-123" := by
  have h := storeTokens_spec sampleStore ⟨"A", "R", .undef, .undef⟩
  exact ⟨rfl, h.1, (h.2.2.2 rfl).trans (by decide)⟩

/-- C10: `storeTokens` treats a null `organization_id` exactly like an
absent one — the previously-stored organization id is left unchanged — and
the organization id is removed only by `signOut`, which leaves the key
absent. -/
theorem storeTokens_null_org (s p : Store) (t : AuthTokens)
    (h : t.organization_id = .null) :
    (storeTokens s t).get "organization_id" = s.get "organization_id" ∧
    (signOut s p).store.get "organization_id" = none := by
  constructor
  · unfold storeTokens
    simp only [h, OptStr.truthy]
    rw [if_neg (by simp)]
    split <;> simp [Store.get, Store.put]
  · simp [signOut, Store.get, Store.del, strTruthy]

/-- C10 witness: a payload carrying an explicit null organization id leaves
the stored organization id `org-123` in place. -/
theorem storeTokens_null_org_witness :
    (⟨"A", "R", .undef, .null⟩ : AuthTokens).organization_id = .null ∧
    (storeTokens sampleStore ⟨"A", "R", .undef, .null⟩).get "organization_id" = some "org-123" := by
  have h := storeTokens_null_org sampleStore pendingMap ⟨"A", "R", .undef, .null⟩ rfl
  exact ⟨rfl, h.1.trans (by decide)⟩

/-- C2: `signOut` deletes the `session_id` key before reading it back for
the backend notify, so the notify fetch is never issued for any input —
even when a session id was stored at the time of invocation, as the
concrete final conjunct shows — while the four credential keys are always
absent afterwards. -/
theorem signOut_never_notifies (s p : Store) :
    (signOut s p).notifyCalled = false ∧
    (signOut s p).store.get "access_token" = none ∧
    (signOut s p).store.get "refresh_token" = none ∧
    (signOut s p).store.get "session_id" = none ∧
    (signOut s p).store.get "organization_id" = none ∧
    strTruthy (sampleStore.get "session_id") = true ∧
    (signOut sampleStore pendingMap).notifyCalled = false := by
  refine ⟨?_, ?_, ?_, ?_, ?_, by decide, by decide⟩ <;>
    simp [signOut, Store.get, Store.del, strTruthy]

/-- C5: with no stored access token and a stored (truthy) refresh token,
`getAccessToken` issues exactly one refresh call carrying
`refresh_token` and `client_type: "vscode"`, and on a 2xx response stores
the returned credentials and returns the new access token. -/
theorem getAccessToken_refresh_on_miss (s p : Store) (t : AuthTokens) (rt : String)
    (hacc : s.get "access_token" = none)
    (hrt : s.get "refresh_token" = some rt) (hrt2 : rt ≠ "") :
    (getAccessToken s p (.ok t)).calls = [⟨rt, "vscode"⟩] ∧
    (getAccessToken s p (.ok t)).token = some t.access_token ∧
    (getAccessToken s p (.ok t)).store = storeTokens s t := by
  refine ⟨?_, ?_, ?_⟩ <;>
    simp [getAccessToken, refreshAccessToken, strTruthy, hacc, hrt, hrt2]

/-- C5 witness: the refresh-on-miss scenario at a concrete store. -/
theorem getAccessToken_refresh_on_miss_witness :
    refreshOnlyStore.get "access_token" = none ∧
    refreshOnlyStore.get "refresh_token" = some "refresh-token-456" ∧
    (getAccessToken refreshOnlyStore Store.empty (.ok sampleTokens)).calls =
      [⟨"refresh-token-456", "vscode"⟩] ∧
    (getAccessToken refreshOnlyStore Store.empty (.ok sampleTokens)).token =
      some "new-access-token" := by
  have h := getAccessToken_refresh_on_miss refreshOnlyStore Store.empty sampleTokens
    "refresh-token-456" (by decide) (by decide) (by decide)
  exact ⟨by decide, by decide, h.1, h.2.1⟩

/-- C6: a failing refresh attempt (non-2xx response or network error)
returns no token and leaves all four credential keys absent; consequently,
when reached through `getAccessToken` on a store with no access token and a
truthy refresh token, `getAccessToken` also returns no token. -/
theorem refresh_failure_purges (s p : Store) (rt : String) (env : RefreshResp)
    (henv : env = .httpError ∨ env = .netError) :
    ((refreshAccessToken s p rt env).token = none ∧
     (refreshAccessToken s p rt env).store.get "access_token" = none ∧
     (refreshAccessToken s p rt env).store.get "refresh_token" = none ∧
     (refreshAccessToken s p rt env).store.get "session_id" = none ∧
     (refreshAccessToken s p rt env).store.get "organization_id" = none) ∧
    (s.get "access_token" = none → s.get "refresh_token" = some rt → rt ≠ "" →
      (getAccessToken s p env).token = none) := by
  have hmain : (refreshAccessToken s p rt env).token = none ∧
      (refreshAccessToken s p rt env).store.get "access_token" = none ∧
      (refreshAccessToken s p rt env).store.get "refresh_token" = none ∧
      (refreshAccessToken s p rt env).store.get "session_id" = none ∧
      (refreshAccessToken s p rt env).store.get "organization_id" = none := by
    rcases henv with h | h <;> subst h <;>
      refine ⟨rfl, ?_, ?_, ?_, ?_⟩ <;>
        simp [refreshAccessToken, signOut, Store.get, Store.del, strTruthy]
  refine ⟨hmain, fun hacc hrt hrt2 => ?_⟩
  simp [getAccessToken, strTruthy, hacc, hrt, hrt2, hmain.1]

/-- C6 witness: a concrete failing refresh on a fully populated store. -/
theorem refresh_failure_purges_witness :
    ((RefreshResp.httpError = RefreshResp.httpError ∨
        RefreshResp.httpError = RefreshResp.netError) ∧
      refreshOnlyStore.get "access_token" = none ∧ ("refresh-token-456" : String) ≠ "") ∧
    (refreshAccessToken sampleStore pendingMap "refresh-token-456" .httpError).store.get
      "session_id" = none ∧
    (getAccessToken refreshOnlyStore Store.empty .httpError).token = none := by
  have h1 := refresh_failure_purges sampleStore pendingMap "refresh-token-456"
    .httpError (Or.inl rfl)
  have h2 := refresh_failure_purges refreshOnlyStore Store.empty "refresh-token-456"
    .httpError (Or.inl rfl)
  exact ⟨⟨Or.inl rfl, by decide, by decide⟩, h1.1.2.2.2.1,
    h2.2 (by decide) (by decide) (by decide)⟩

/-- C4: a callback carrying a (truthy) code and state whose PKCE entry is
absent (falsy) in the durable store fails with "Invalid authentication
state" and issues no token-exchange request, whatever the backend would
have answered. -/
theorem handleCallback_invalid_state (s p : Store) (code st : Option String)
    (env : ExchangeResp)
    (hc : strTruthy code = true) (hs : strTruthy st = true)
    (hpend : strTruthy (s.get ("pkce_" ++ st.getD "")) = false) :
    (handleCallback s p code st env).error = some "Invalid authentication state" ∧
    (handleCallback s p code st env).exchangeCalled = false := by
  constructor <;> simp [handleCallback, hc, hs, hpend]

/-- C4 witness: an unknown state with a well-formed code fails as invalid
state with no exchange fetch. -/
theorem handleCallback_invalid_state_witness :
    (strTruthy (some "abc") = true ∧
      strTruthy (Store.empty.get ("pkce_" ++ (some "xyz").getD "")) = false) ∧
    (handleCallback Store.empty Store.empty (some "abc") (some "xyz")
        (.ok sampleTokens)).error = some "Invalid authentication state" ∧
    (handleCallback Store.empty Store.empty (some "abc") (some "xyz")
        (.ok sampleTokens)).exchangeCalled = false := by
  have h := handleCallback_invalid_state Store.empty Store.empty (some "abc") (some "xyz")
    (.ok sampleTokens) (by decide) (by decide) (by decide)
  exact ⟨⟨by decide, by decide⟩, h.1, h.2⟩

/-- C1 counterexample: a callback whose pending-entry lookup succeeds but
whose token exchange fails leaves the pending entry in both the durable
store and the in-memory map — the entry outlives the failed attempt. -/
theorem handleCallback_failed_exchange_keeps_pending :
    strTruthy (pendingStore.get "pkce_xyz") = true ∧
    (handleCallback pendingStore pendingMap (some "abc") (some "xyz")
        (.httpError (.str "Invalid authorization code"))).error =
      some "Invalid authorization code" ∧
    (handleCallback pendingStore pendingMap (some "abc") (some "xyz")
        (.httpError (.str "Invalid authorization code"))).store.get "pkce_xyz" =
      some "v1" ∧
    (handleCallback pendingStore pendingMap (some "abc") (some "xyz")
        (.httpError (.str "Invalid authorization code"))).pending.get "xyz" =
      some "v1" := by
  decide

/-- C1 amended: when the pending-entry lookup succeeds, the entry is deleted
from both the durable store and the in-memory map exactly when the token
exchange succeeds; on a failed exchange or a network error both stores are
left unchanged. -/
theorem handleCallback_pending_lifecycle (s p : Store) (code st : Option String)
    (hc : strTruthy code = true) (hs : strTruthy st = true)
    (hpend : strTruthy (s.get ("pkce_" ++ st.getD "")) = true) :
    (∀ t : AuthTokens,
      (handleCallback s p code st (.ok t)).store.get ("pkce_" ++ st.getD "") = none ∧
      (handleCallback s p code st (.ok t)).pending.get (st.getD "") = none ∧
      (handleCallback s p code st (.ok t)).error = none) ∧
    (∀ e, (handleCallback s p code st (.httpError e)).store = s ∧
      (handleCallback s p code st (.httpError e)).pending = p) ∧
    (∀ m, (handleCallback s p code st (.netError m)).store = s ∧
      (handleCallback s p code st (.netError m)).pending = p) := by
  simp only [Store.get] at hpend
  refine ⟨fun t => ⟨?_, ?_, ?_⟩, fun e => ⟨?_, ?_⟩, fun m => ⟨?_, ?_⟩⟩ <;>
    simp [handleCallback, hc, hs, hpend, Store.get, Store.del]

/-- C1 amended witness: a successful exchange deletes the pending entry
from both stores. -/
theorem handleCallback_pending_lifecycle_witness :
    strTruthy (pendingStore.get ("pkce_" ++ (some "xyz").getD "")) = true ∧
    (handleCallback pendingStore pendingMap (some "abc") (some "xyz")
        (.ok sampleTokens)).store.get ("pkce_" ++ (some "xyz").getD "") = none ∧
    (handleCallback pendingStore pendingMap (some "abc") (some "xyz")
        (.ok sampleTokens)).pending.get ((some "xyz").getD "") = none := by
  have h := handleCallback_pending_lifecycle pendingStore pendingMap (some "abc")
    (some "xyz") (by decide) (by decide) (by decide)
  exact ⟨by decide, (h.1 sampleTokens).1, (h.1 sampleTokens).2.1⟩

/-- C9: `validateSession` is a total boolean function of its inputs (the
embedding never throws); it answers `true` exactly when the resolved access
token and the stored session id are both truthy and the backend
validate-session POST answers with a 2xx (`response.ok`) status — so it
answers `false` whenever either credential is absent and on any network
error, failing closed. -/
theorem validateSession_spec (s p : Store) (rEnv : RefreshResp) (vEnv : ValidateResp) :
    (validateSession s p rEnv vEnv).valid = true ↔
      (strTruthy (getAccessToken s p rEnv).token = true ∧
       strTruthy ((getAccessToken s p rEnv).store.get "session_id") = true ∧
       vEnv = .resp true) := by
  unfold validateSession
  cases h1 : strTruthy (getAccessToken s p rEnv).token <;>
    cases h2 : strTruthy ((getAccessToken s p rEnv).store.get "session_id") <;>
      cases vEnv <;>
        simp [h1, h2]

/-- In the headers object built by the API client, the `Authorization`
assignment comes after the spread of the caller's headers, so its lookup
always yields the bearer token. -/
theorem objGet_mkHeaders_auth (caller : List (String × String)) (t : String) :
    objGet (mkHeaders caller t) "Authorization" = some ("Bearer " ++ t) := by
  induction caller with
  | nil => rfl
  | cons hd tl ih =>
      cases hd with
      | mk k v => simp [mkHeaders, objGet] at ih ⊢; simp [ih]

/-- C8: every network request issued by `ApiClient.request` — for any
caller-supplied headers, token oracle and response oracle — carries
`Authorization: Bearer <token>` for the token it was sent with; the
caller's headers cannot override it because the auth header is assigned
after spreading them. -/
theorem request_auth_always_wins (caller : List (String × String))
    (toks : List (Option String)) (resps : List ApiResp) :
    ∀ q ∈ (request caller toks resps).sent,
      objGet q.headers "Authorization" = some ("Bearer " ++ q.token) := by
  induction resps generalizing toks with
  | nil =>
      intro q hq
      cases toks with
      | nil => simp [request] at hq
      | cons tok toks' =>
          simp only [request] at hq
          split at hq <;> simp at hq
  | cons r rs ih =>
      intro q hq
      cases toks with
      | nil => simp [request] at hq
      | cons tok toks' =>
          simp only [request] at hq
          split at hq
          · simp at hq
          · split at hq
            · -- 401 branch: split the match on the remaining token oracle
              split at hq
              · simp at hq
                subst hq; exact objGet_mkHeaders_auth caller _
              · split at hq
                · simp only [List.mem_cons] at hq
                  rcases hq with hq | hq
                  · subst hq; exact objGet_mkHeaders_auth caller _
                  · exact ih _ q hq
                · simp at hq
                  subst hq; exact objGet_mkHeaders_auth caller _
            · split at hq <;>
                · simp at hq
                  subst hq; exact objGet_mkHeaders_auth caller _

/-- C8 witness: a caller-supplied `Authorization` header is overridden by
the bearer token on the one request a successful call issues. -/
theorem request_auth_always_wins_witness :
    (⟨"T", mkHeaders [("Authorization", "caller-set")] "T"⟩ : SentReq) ∈
      (request [("Authorization", "caller-set")] [some "T"]
        [(⟨200, .undef, "ok"⟩ : ApiResp)]).sent ∧
    objGet (mkHeaders [("Authorization", "caller-set")] "T") "Authorization" =
      some ("Bearer " ++ "T") := by
  refine ⟨by decide, ?_⟩
  exact request_auth_always_wins [("Authorization", "caller-set")] [some "T"]
    [(⟨200, .undef, "ok"⟩ : ApiResp)]
    ⟨"T", mkHeaders [("Authorization", "caller-set")] "T"⟩ (by decide)

/-- C3: the 401 policy of `ApiClient.request`.  First conjunct: after a 401,
when the re-requested token is a changed truthy value, the request is
retried exactly once with the new token, and a second consecutive 401 (with
the token unchanged on that re-fetch, as a sequentially-consistent store
yields) throws "Authentication required" after exactly two network calls.
Second conjunct: the single retry with the new token resolves with the
retried response's body when it is 2xx.  Third conjunct: when the
re-requested token is unchanged or falsy, the client throws
"Authentication required", fires the re-authentication command, and issues
no further network call. -/
theorem request_401_retry_policy (caller : List (String × String)) (t1 t2 : String)
    (r1 r2 r3 : ApiResp)
    (h1 : t1 ≠ "") (h2 : t2 ≠ "") (h12 : t2 ≠ t1) (hr1 : r1.status = 401) :
    (r2.status = 401 →
      request caller [some t1, some t2, some t2, some t2] [r1, r2] =
        ⟨.err "Authentication required",
          [⟨t1, mkHeaders caller t1⟩, ⟨t2, mkHeaders caller t2⟩], true⟩) ∧
    (r3.isOk = true →
      request caller [some t1, some t2, some t2] [r1, r3] =
        ⟨.ok r3.body, [⟨t1, mkHeaders caller t1⟩, ⟨t2, mkHeaders caller t2⟩], false⟩) ∧
    (∀ (nt : Option String) (toks2 : List (Option String)) (rest : List ApiResp),
      strTruthy nt = false ∨ nt = some t1 →
      request caller (some t1 :: nt :: toks2) (r1 :: rest) =
        ⟨.err "Authentication required", [⟨t1, mkHeaders caller t1⟩], true⟩) := by
  have ht1 : strTruthy (some t1) = true := by simp [strTruthy, h1]
  have ht2 : strTruthy (some t2) = true := by simp [strTruthy, h2]
  refine ⟨fun hr2 => ?_, fun hok => ?_, fun nt toks2 rest hnt => ?_⟩
  · simp [request, ht1, ht2, hr1, hr2, h2, h12]
  · have hne : r3.status ≠ 401 := by
      simp [ApiResp.isOk] at hok
      omega
    simp [request, ht1, ht2, hr1, hne, h2, h12, hok]
  · rcases hnt with hnt | hnt
    · simp [request, ht1, hr1, hnt]
    · subst hnt
      simp [request, ht1, hr1]

/-- C3 witness: concrete runs of the three branches of the 401 policy. -/
theorem request_401_retry_policy_witness :
    (("A" : String) ≠ "" ∧ ("B" : String) ≠ "" ∧ ("B" : String) ≠ "A") ∧
    request [] [some "A", some "B", some "B", some "B"]
        [(⟨401, .undef, ""⟩ : ApiResp), ⟨401, .undef, ""⟩] =
      ⟨.err "Authentication required",
        [⟨"A", mkHeaders [] "A"⟩, ⟨"B", mkHeaders [] "B"⟩], true⟩ ∧
    request [] [some "A", some "B", some "B"]
        [(⟨401, .undef, ""⟩ : ApiResp), ⟨200, .undef, "body"⟩] =
      ⟨.ok "body", [⟨"A", mkHeaders [] "A"⟩, ⟨"B", mkHeaders [] "B"⟩], false⟩ ∧
    request [] [some "A", some "A"] [(⟨401, .undef, ""⟩ : ApiResp)] =
      ⟨.err "Authentication required", [⟨"A", mkHeaders [] "A"⟩], true⟩ := by
  have h := request_401_retry_policy [] "A" "B" ⟨401, .undef, ""⟩ ⟨401, .undef, ""⟩
    ⟨200, .undef, "body"⟩ (by decide) (by decide) (by decide) rfl
  exact ⟨⟨by decide, by decide, by decide⟩, h.1 rfl, h.2.1 (by decide),
    h.2.2 (some "A") [] [] (Or.inr rfl)⟩

end Softcodes
